import Mathlib

/-!
Verification development for the offer-generation engine of
CommandoREI/ai-offer-creator (src/app.py).

The engine is shallowly embedded:

* Python float values are modelled exactly by `Flt`, an unreduced fraction
  `num / den` (`den` positive by construction in every operation used
  here).  All the arithmetic the program performs on request and offer
  figures is exact at these magnitudes, so the exact-rational model is
  faithful.
* JSON values flowing through the Flask handlers are modelled by `Val`
  (offer-level values), `TopVal` (top-level values of the drafting-service
  response, which may be sub-objects), and `Raw` (raw request-body values).
* Python dict reads and writes are `dictGet` / `dictSet` on association
  lists (Python dicts preserve insertion order; writing an existing key
  keeps its position, writing a new key appends).
* `float(...)` / `int(...)` coercions are `pyFloat` / `pyInt`, returning
  `none` where CPython raises (`ValueError` / `TypeError`).  The numeric
  string parser accepts the plain decimal forms the UI produces; exotic
  float syntax (exponents, infinities, embedded whitespace) is not needed
  by any theorem below.
* Python's `round(x, 0)` and the `:,.0f` format both round half to even,
  which `pyRound` implements exactly.
-/

/-- An exact model of the Python float values the program manipulates:
an unreduced fraction.  Every operation below keeps `den` positive. -/
structure Flt where
  num : Int
  den : Nat
deriving DecidableEq, Repr

instance (n : Nat) : OfNat Flt n := ⟨⟨Int.ofNat n, 1⟩⟩

/-- Embed an integer. -/
def Flt.ofInt (i : Int) : Flt := ⟨i, 1⟩

def Flt.neg (a : Flt) : Flt := ⟨-a.num, a.den⟩

instance : Neg Flt := ⟨Flt.neg⟩

def Flt.add (a b : Flt) : Flt := ⟨a.num * b.den + b.num * a.den, a.den * b.den⟩

instance : Add Flt := ⟨Flt.add⟩

def Flt.sub (a b : Flt) : Flt := ⟨a.num * b.den - b.num * a.den, a.den * b.den⟩

instance : Sub Flt := ⟨Flt.sub⟩

def Flt.mul (a b : Flt) : Flt := ⟨a.num * b.num, a.den * b.den⟩

instance : Mul Flt := ⟨Flt.mul⟩

/-- Order by cross-multiplication (denominators are positive). -/
def Flt.lt (a b : Flt) : Prop := a.num * (b.den : Int) < b.num * (a.den : Int)

instance : LT Flt := ⟨Flt.lt⟩

instance (a b : Flt) : Decidable (a < b) :=
  inferInstanceAs (Decidable (a.num * (b.den : Int) < b.num * (a.den : Int)))

/-- An offer-level JSON value as drafted by the service. -/
inductive Val where
  | vNum : Flt → Val
  | vStr : String → Val
  | vList : List String → Val
  | vNull : Val
deriving DecidableEq, Repr

/-- A top-level value of the parsed drafting-service response:
either a primitive or an offer sub-object. -/
inductive TopVal where
  | prim : Val → TopVal
  | sub : List (String × Val) → TopVal
deriving DecidableEq, Repr

/-- An offer object: the field map of `offer_a` / `offer_b`. -/
abbrev Offer := List (String × Val)

/-- The parsed top-level drafting-service response object. -/
abbrev Draft := List (String × TopVal)

/-- A raw request-body value (the JSON body of the POST request). -/
inductive Raw where
  | rNum : Flt → Raw
  | rStr : String → Raw
  | rBool : Bool → Raw
  | rList : List String → Raw
  | rNull : Raw
deriving DecidableEq, Repr

/-- The Python exceptions the embedded code can raise. -/
inductive PyError where
  | keyError : String → PyError
  | valueError : String → PyError
  | typeError : String → PyError
deriving DecidableEq, Repr

/-- Result of `json.loads` on the drafting-service response: a JSON object
or some other top-level JSON value. -/
inductive Parsed where
  | jobj : Draft → Parsed
  | other : Parsed
deriving DecidableEq, Repr

/-- Python dict read: first binding of the key, if any. -/
def dictGet {α : Type} : List (String × α) → String → Option α
  | [], _ => none
  | (k', v) :: rest, k => if k' = k then some v else dictGet rest k

/-- Python dict write: overwrite in place if the key is bound, else append. -/
def dictSet {α : Type} : List (String × α) → String → α → List (String × α)
  | [], k, v => [(k, v)]
  | (k', v') :: rest, k, v =>
      if k' = k then (k, v) :: rest else (k', v') :: dictSet rest k v

/-- Field lookup inside an offer object. -/
def getField (o : Offer) (f : String) : Option Val := dictGet o f

/-- Field lookup inside the offer stored at key `k` of a draft. -/
def offerField (d : Draft) (k f : String) : Option Val :=
  match dictGet d k with
  | some (TopVal.sub o) => getField o f
  | _ => none

/-- All characters are decimal digits. -/
def allDigits (cs : List Char) : Bool := cs.all (fun c => c.isDigit)

/-- Decimal digits to a natural number. -/
def digitsToNat (cs : List Char) : Nat :=
  List.foldl (fun a c => a * 10 + (c.toNat - 48)) 0 cs

/-- Python `float(s)` on the plain decimal strings the UI produces:
optional minus sign, digits, optional fractional part. -/
def pyFloatOfString (s : String) : Option Flt :=
  let cs := s.toList
  let sgn : Bool × List Char :=
    match cs with
    | '-' :: rest => (true, rest)
    | _ => (false, cs)
  let ip := sgn.2.takeWhile (fun c => c ≠ '.')
  let rest := sgn.2.dropWhile (fun c => c ≠ '.')
  let mag : Option Flt :=
    match rest with
    | [] =>
        if !ip.isEmpty && allDigits ip then some ⟨(digitsToNat ip : Int), 1⟩ else none
    | _ :: frac =>
        if allDigits ip && allDigits frac && (!ip.isEmpty || !frac.isEmpty) then
          some (⟨(digitsToNat ip : Int), 1⟩ + ⟨(digitsToNat frac : Int), 10 ^ frac.length⟩)
        else none
  mag.map (fun q => if sgn.1 then -q else q)

/-- Python `int(s)`: optional minus sign and digits only. -/
def pyIntOfString (s : String) : Option Int :=
  match s.toList with
  | '-' :: rest =>
      if !rest.isEmpty && allDigits rest then some (-(digitsToNat rest : Int)) else none
  | cs => if !cs.isEmpty && allDigits cs then some ((digitsToNat cs : Int)) else none

/-- Python `float(x)` on a raw request value; `none` where CPython raises. -/
def pyFloat : Raw → Option Flt
  | .rNum q => some q
  | .rBool b => some (if b then 1 else 0)
  | .rStr s => pyFloatOfString s
  | .rList _ => none
  | .rNull => none

/-- Truncation toward zero, as Python `int()` applied to a float. -/
def fltTrunc (q : Flt) : Int :=
  if 0 ≤ q.num then Int.fdiv q.num (q.den : Int) else -(Int.fdiv (-q.num) (q.den : Int))

/-- Python `int(x)` on a raw request value; `none` where CPython raises. -/
def pyInt : Raw → Option Int
  | .rNum q => some (fltTrunc q)
  | .rBool b => some (if b then 1 else 0)
  | .rStr s => pyIntOfString s
  | .rList _ => none
  | .rNull => none

/-- Python `round(x, 0)`: round half to even (banker's rounding). -/
def pyRound (q : Flt) : Int :=
  let f := Int.fdiv q.num (q.den : Int)
  let r := q - Flt.ofInt f
  if r < (⟨1, 2⟩ : Flt) then f
  else if (⟨1, 2⟩ : Flt) < r then f + 1
  else if f % 2 = 0 then f else f + 1

example : pyRound (5 : Flt) = 5 := by decide
example : pyRound (⟨1, 2⟩ : Flt) = 0 := by decide
example : pyRound (⟨3, 2⟩ : Flt) = 2 := by decide
example : pyRound (⟨-7, 2⟩ : Flt) = -4 := by decide
example : pyFloatOfString "268000" = some 268000 := by decide
example : pyFloatOfString "abc" = none := by decide
example : pyFloatOfString "-2.5" = some ⟨-25, 10⟩ := by decide
example : pyIntOfString "70" = some 70 := by decide
example : pyIntOfString "70.5" = none := by decide

/-- The strategy catalog (app.py lines 22-58); only the `name` entry is
read by the engine (prompt lines 152-153). -/
def STRATEGIES : List (String × String) := [
  ("cash", "All Cash"),
  ("subject_to", "Subject-To (Take Over Payments)"),
  ("lease_option", "Lease Option"),
  ("seller_financing", "Seller Financing"),
  ("hybrid", "Hybrid (Cash + Terms)")]

/-- `STRATEGIES[x]['name']` on a raw selector value: a `KeyError` when the
selector is absent (`None`), a number, a boolean, or an unknown string, and
a `TypeError` for an unhashable list. -/
def catalogLookup : Raw → Except PyError String
  | .rStr s =>
      match dictGet STRATEGIES s with
      | some n => .ok n
      | none => .error (.keyError s)
  | .rNull => .error (.keyError "None")
  | .rNum _ => .error (.keyError "number")
  | .rBool b => .error (.keyError (if b then "True" else "False"))
  | .rList _ => .error (.typeError "unhashable type: list")

/-- `', '.join(x)`: joins a list of strings, or the characters of a string;
raises `TypeError` otherwise. -/
def pyJoin : Raw → Except PyError String
  | .rList l => .ok (String.intercalate ", " l)
  | .rStr s => .ok (String.intercalate ", " (s.toList.map (fun c => String.mk [c])))
  | .rNum _ => .error (.typeError "can only join an iterable")
  | .rBool _ => .error (.typeError "can only join an iterable")
  | .rNull => .error (.typeError "can only join an iterable")

/-- Short description of a raw value, used as the payload of conversion
errors (stands in for CPython's message text). -/
def rawText : Raw → String
  | .rStr s => s
  | .rNum _ => "number"
  | .rBool b => if b then "True" else "False"
  | .rList _ => "list"
  | .rNull => "None"

/-- `float(x)` as an exception-raising step. -/
def pyFloatE (r : Raw) : Except PyError Flt :=
  match pyFloat r with
  | some q => .ok q
  | none => .error (.valueError (rawText r))

/-- `int(x)` as an exception-raising step. -/
def pyIntE (r : Raw) : Except PyError Int :=
  match pyInt r with
  | some i => .ok i
  | none => .error (.valueError (rawText r))

/-- `data.get(k, dflt)`. -/
def reqGetD (data : List (String × Raw)) (k : String) (dflt : Raw) : Raw :=
  (dictGet data k).getD dflt

/-- `property_data` (app.py lines 82-88). -/
structure PropertyData where
  arv : Flt
  repairs : Flt
  mortgage_balance : Flt
  monthly_payment : Flt
  condition : Raw
deriving DecidableEq, Repr

/-- `seller_data` (app.py lines 91-97). -/
structure SellerData where
  motivation_score : Int
  pain_point : Raw
  timeline : Raw
  cash_needed : Flt
  priorities : Raw
deriving DecidableEq, Repr

/-- `investor_data` (app.py lines 100-105). -/
structure InvestorData where
  max_offer_percent : Flt
  min_profit : Flt
  available_cash : Flt
  exit_strategy : Raw
deriving DecidableEq, Repr

/-- The values `generate_offers` extracts from the request body
(app.py lines 76-105).  `advanced_mode` / `advanced_settings`
(lines 108-109) are extracted but never read downstream and are omitted. -/
structure Normalized where
  strategy1 : Raw
  strategy2 : Raw
  weight1 : Int
  weight2 : Int
  property_data : PropertyData
  seller_data : SellerData
  investor_data : InvestorData
deriving DecidableEq, Repr

/-- Input extraction of `generate_offers` (app.py lines 76-105), in source
order; the first failing conversion aborts the handler. -/
def extractInputs (data : List (String × Raw)) : Except PyError Normalized := do
  let strategy1 := reqGetD data "strategy1" .rNull
  let strategy2 := reqGetD data "strategy2" .rNull
  let weight1 ← pyIntE (reqGetD data "weight1" (.rNum 50))
  let weight2 ← pyIntE (reqGetD data "weight2" (.rNum 50))
  let arv ← pyFloatE (reqGetD data "arv" (.rNum 0))
  let repairs ← pyFloatE (reqGetD data "repairs" (.rNum 0))
  let mortgage_balance ← pyFloatE (reqGetD data "mortgage_balance" (.rNum 0))
  let monthly_payment ← pyFloatE (reqGetD data "monthly_payment" (.rNum 0))
  let condition := reqGetD data "condition" (.rNum 5)
  let motivation_score ← pyIntE (reqGetD data "motivation_score" (.rNum 5))
  let pain_point := reqGetD data "pain_point" (.rStr "")
  let timeline := reqGetD data "timeline" (.rStr "")
  let cash_needed ← pyFloatE (reqGetD data "cash_needed" (.rNum 0))
  let priorities := reqGetD data "priorities" (.rList [])
  let max_offer_percent ← pyFloatE (reqGetD data "max_offer_percent" (.rNum 70))
  let min_profit ← pyFloatE (reqGetD data "min_profit" (.rNum 20000))
  let available_cash ← pyFloatE (reqGetD data "available_cash" (.rNum 10000))
  let exit_strategy := reqGetD data "exit_strategy" (.rStr "flip")
  pure { strategy1, strategy2, weight1, weight2,
         property_data := { arv, repairs, mortgage_balance, monthly_payment, condition },
         seller_data := { motivation_score, pain_point, timeline, cash_needed, priorities },
         investor_data := { max_offer_percent, min_profit, available_cash, exit_strategy } }

/-- The fallible sub-expressions of the prompt f-string (app.py lines
129-199), in textual (= evaluation) order: the `', '.join` of the seller
priorities (line 143), then the catalog lookups for offer A and offer B
(lines 152-153).  All of this runs before the OpenAI call (line 202). -/
def promptEffects (n : Normalized) : Except PyError Unit := do
  let _ ← pyJoin n.seller_data.priorities
  let _ ← catalogLookup n.strategy1
  let _ ← catalogLookup n.strategy2
  pure ()

/-- Metadata attachment (app.py lines 216-218): three dict writes on the
parsed drafting-service response, in source order. -/
def addMetadata (now : String) (arv : Flt) (motivation : Int) (result : Draft) : Draft :=
  dictSet
    (dictSet (dictSet result "generated_at" (.prim (.vStr now)))
      "property_arv" (.prim (.vNum arv)))
    "seller_motivation" (.prim (.vNum (Flt.ofInt motivation)))

/-- `generate_strategic_offers` (app.py lines 123-220) after input
extraction: prompt construction, the external drafting call (whose parsed
response is the `parsed` parameter), and metadata attachment.  Item
assignment on a non-object parse result raises `TypeError`. -/
def generate_strategic_offers (n : Normalized) (parsed : Parsed) (now : String) :
    Except PyError Draft := do
  promptEffects n
  match parsed with
  | .jobj result =>
      pure (addMetadata now n.property_data.arv n.seller_data.motivation_score result)
  | .other => throw (.typeError "does not support item assignment")

/-- The `/api/generate-offers` handler body (app.py lines 72-118):
extraction then `generate_strategic_offers`.  An `Except.error` is what the
surrounding `try/except` turns into an HTTP 500 rejection. -/
def generate_offers (data : List (String × Raw)) (parsed : Parsed) (now : String) :
    Except PyError Draft := do
  let n ← extractInputs data
  generate_strategic_offers n parsed now

/-- The reconciliation formula the specification states for cash offers:
`round(purchase_price - mortgage_balance - arrears - 0.02*purchase_price, 0)`.
This is spec text; nothing in src/app.py computes it. -/
def specCashAtClosing (purchase_price mortgage_balance arrears : Flt) : Int :=
  pyRound (purchase_price - mortgage_balance - arrears - purchase_price * ⟨2, 100⟩)

example : specCashAtClosing 268000 260000 3000 = -360 := by decide
example : specCashAtClosing 268000 260000 0 = 2640 := by decide
example : specCashAtClosing 0 100000 0 = -100000 := by decide

@[simp]
theorem except_bind_ok {α β : Type} (a : α) (f : α → Except PyError β) :
    (Except.ok a >>= f) = f a := rfl

@[simp]
theorem except_bind_error {α β : Type} (e : PyError) (f : α → Except PyError β) :
    ((Except.error e : Except PyError α) >>= f) = .error e := rfl

@[simp]
theorem except_pure {α : Type} (a : α) : (pure a : Except PyError α) = .ok a := rfl

theorem bind_ok {α β : Type} {e : Except PyError α} {f : α → Except PyError β} {b : β}
    (h : (e >>= f) = .ok b) : ∃ a, e = .ok a ∧ f a = .ok b := by
  cases e with
  | error err => simp at h
  | ok a => exact ⟨a, rfl, by simpa using h⟩

theorem dictGet_dictSet_same {α : Type} (d : List (String × α)) (k : String) (v : α) :
    dictGet (dictSet d k v) k = some v := by
  induction d with
  | nil => simp [dictSet, dictGet]
  | cons p rest ih =>
    obtain ⟨a, b⟩ := p
    by_cases h : a = k
    · simp [dictSet, dictGet, h]
    · simp [dictSet, dictGet, h, ih]

theorem dictGet_dictSet_ne {α : Type} (d : List (String × α)) {k k' : String} (v : α)
    (h : k ≠ k') : dictGet (dictSet d k' v) k = dictGet d k := by
  induction d with
  | nil => simp [dictSet, dictGet, Ne.symm h]
  | cons p rest ih =>
    obtain ⟨a, b⟩ := p
    by_cases h1 : a = k'
    · subst h1
      simp [dictSet, dictGet, Ne.symm h]
    · by_cases h2 : a = k <;> simp [dictSet, dictGet, h1, h2, h, ih]

theorem dictSet_of_get_eq {α : Type} (d : List (String × α)) (k : String) (v : α)
    (h : dictGet d k = some v) : dictSet d k v = d := by
  induction d with
  | nil => simp [dictGet] at h
  | cons p rest ih =>
    obtain ⟨a, b⟩ := p
    by_cases h1 : a = k
    · subst h1
      simp [dictGet] at h
      simp [dictSet, h]
    · simp [dictGet, h1] at h
      simp [dictSet, h1, ih h]

theorem addMetadata_get_other (now : String) (arv : Flt) (mot : Int) (r : Draft)
    {k : String} (h1 : k ≠ "generated_at") (h2 : k ≠ "property_arv")
    (h3 : k ≠ "seller_motivation") :
    dictGet (addMetadata now arv mot r) k = dictGet r k := by
  unfold addMetadata
  rw [dictGet_dictSet_ne _ _ h3, dictGet_dictSet_ne _ _ h2, dictGet_dictSet_ne _ _ h1]

theorem addMetadata_idem (now : String) (arv : Flt) (mot : Int) (r : Draft) :
    addMetadata now arv mot (addMetadata now arv mot r) = addMetadata now arv mot r := by
  have h1 : dictGet (addMetadata now arv mot r) "generated_at" =
      some (.prim (.vStr now)) := by
    unfold addMetadata
    rw [dictGet_dictSet_ne _ _ (by decide), dictGet_dictSet_ne _ _ (by decide),
      dictGet_dictSet_same]
  have h2 : dictGet (addMetadata now arv mot r) "property_arv" =
      some (.prim (.vNum arv)) := by
    unfold addMetadata
    rw [dictGet_dictSet_ne _ _ (by decide), dictGet_dictSet_same]
  have h3 : dictGet (addMetadata now arv mot r) "seller_motivation" =
      some (.prim (.vNum (Flt.ofInt mot))) := by
    unfold addMetadata
    rw [dictGet_dictSet_same]
  have key : ∀ e : Draft, dictGet e "generated_at" = some (.prim (.vStr now)) →
      dictGet e "property_arv" = some (.prim (.vNum arv)) →
      dictGet e "seller_motivation" = some (.prim (.vNum (Flt.ofInt mot))) →
      addMetadata now arv mot e = e := by
    intro e g1 g2 g3
    unfold addMetadata
    rw [dictSet_of_get_eq _ _ _ g1, dictSet_of_get_eq _ _ _ g2, dictSet_of_get_eq _ _ _ g3]
  exact key _ h1 h2 h3

theorem generate_strategic_offers_ok (n : Normalized) (r : Draft) (now : String)
    (hp : promptEffects n = .ok ()) :
    generate_strategic_offers n (.jobj r) now =
      .ok (addMetadata now n.property_data.arv n.seller_data.motivation_score r) := by
  unfold generate_strategic_offers
  rw [hp]
  rfl

/-- Comma-group a reversed digit list (least significant digit first). -/
def group3 : List Char → List Char
  | a :: b :: c :: d :: rest => a :: b :: c :: ',' :: group3 (d :: rest)
  | l => l

/-- Decimal rendering of an integer with thousands separators, as the
`:,.0f` format produces after rounding. -/
def intCommaStr (n : Int) : String :=
  let sign := if n < 0 then "-" else ""
  let digits := (Int.natAbs n).repr.toList
  sign ++ String.mk (group3 digits.reverse).reverse

example : intCommaStr 268000 = "268,000" := by decide
example : intCommaStr (-360) = "-360" := by decide
example : intCommaStr 5000 = "5,000" := by decide

/-- `f"${x:,.0f}"` applied to an offer value: formats a number, raises for
anything else (`ValueError` for a string, `TypeError` otherwise). -/
def fmtMoneyCell : Val → Except PyError String
  | .vNum q => .ok ("$" ++ intCommaStr (pyRound q))
  | .vStr s => .error (.valueError s)
  | .vList _ => .error (.typeError "unsupported format string")
  | .vNull => .error (.typeError "unsupported format string")

/-- Python `str(x)` as used by f-string interpolation of non-formatted
values; the exact text for non-strings is immaterial to the theorems. -/
def pyStr : Val → String
  | .vStr s => s
  | .vNum q => intCommaStr q.num ++ "/" ++ intCommaStr (Int.ofNat q.den)
  | .vList l => String.intercalate ", " l
  | .vNull => "None"

/-- `for benefit in x`: iterates a list, or the characters of a string;
raises `TypeError` otherwise. -/
def pyIterStrings : Val → Except PyError (List String)
  | .vList l => .ok l
  | .vStr s => .ok (s.toList.map (fun c => String.mk [c]))
  | .vNum _ => .error (.typeError "not iterable")
  | .vNull => .error (.typeError "not iterable")

/-- `offer[f]` with a `KeyError` on a missing field. -/
def getFieldE (o : Offer) (f : String) : Except PyError Val :=
  match getField o f with
  | some v => .ok v
  | none => .error (.keyError f)

/-- `offers[k]` on the top-level dict: the offer sub-object, a `KeyError`
when absent, a `TypeError` when the value is not an object. -/
def getSub (d : Draft) (k : String) : Except PyError Offer :=
  match dictGet d k with
  | some (TopVal.sub o) => .ok o
  | some (TopVal.prim _) => .error (.typeError k)
  | none => .error (.keyError k)

/-- The text `generate_pdf` renders for one offer, in source order
(app.py lines 281-307 for offer A, 312-338 for offer B). -/
structure RenderedOffer where
  headline : String
  price_cell : String
  cash_cell : String
  payment_cell : String
  timeline_cell : String
  benefits : List String
deriving DecidableEq, Repr

/-- The document `generate_pdf` assembles: title block (depending on the
format type and today's date, lines 272-278) and the two rendered offers. -/
structure PdfDoc where
  title : String
  date_line : Option String
  offer_a : RenderedOffer
  offer_b : RenderedOffer
deriving DecidableEq, Repr

/-- The data accesses and text of one offer section of `generate_pdf`:
headline paragraph (line 281), the four table cells (lines 284-287), and
the benefit bullets (lines 306-307), in evaluation order. -/
def renderOffer (o : Offer) : Except PyError RenderedOffer := do
  let hd ← getFieldE o "headline"
  let pp ← getFieldE o "purchase_price"
  let ppc ← fmtMoneyCell pp
  let cc ← getFieldE o "cash_at_closing"
  let ccc ← fmtMoneyCell cc
  let ps ← getFieldE o "payment_structure"
  let td ← getFieldE o "timeline_days"
  let sb ← getFieldE o "seller_benefits"
  let sbl ← pyIterStrings sb
  pure { headline := pyStr hd, price_cell := ppc, cash_cell := ccc,
         payment_cell := pyStr ps, timeline_cell := pyStr td ++ " days",
         benefits := sbl }

/-- `generate_pdf` (app.py lines 246-344) as the data it reads from the
offers dict and the text it renders: the offer A section runs to completion
before the first access to `offer_b` (line 312). -/
def generate_pdf (offers : Draft) (format_type today : String) :
    Except PyError PdfDoc := do
  let title := if format_type = "branded"
    then "AI Offer Creator - Real Estate Commando" else "Property Offer Comparison"
  let date_line := if format_type = "branded" then some ("Generated: " ++ today) else none
  let oa ← getSub offers "offer_a"
  let ra ← renderOffer oa
  let ob ← getSub offers "offer_b"
  let rb ← renderOffer ob
  pure { title, date_line, offer_a := ra, offer_b := rb }

theorem getSub_eq {d : Draft} {k : String} {o : Offer}
    (h : dictGet d k = some (TopVal.sub o)) : getSub d k = .ok o := by
  unfold getSub
  rw [h]

/-- Agreement on the six offer fields the PDF formatter reads. -/
def sixAgree (o o' : Offer) : Prop :=
  getField o "headline" = getField o' "headline" ∧
  getField o "purchase_price" = getField o' "purchase_price" ∧
  getField o "cash_at_closing" = getField o' "cash_at_closing" ∧
  getField o "payment_structure" = getField o' "payment_structure" ∧
  getField o "timeline_days" = getField o' "timeline_days" ∧
  getField o "seller_benefits" = getField o' "seller_benefits"

theorem renderOffer_congr {o o' : Offer} (h : sixAgree o o') :
    renderOffer o = renderOffer o' := by
  obtain ⟨e1, e2, e3, e4, e5, e6⟩ := h
  unfold renderOffer
  simp only [getFieldE, e1, e2, e3, e4, e5, e6]

/-- Timestamp used by the concrete scenarios (`datetime.now().isoformat()`
is an external effect; the engine only stores the string). -/
def nowStamp : String := "2026-01-01T00:00:00"

/-- A concrete request body: cash strategy for both offers, ARV 300000,
mortgage balance 260000. -/
def reqCash : List (String × Raw) := [
  ("strategy1", .rStr "cash"), ("strategy2", .rStr "cash"),
  ("arv", .rNum 300000), ("mortgage_balance", .rNum 260000)]

/-- A concrete drafted cash offer whose figures do not reconcile:
purchase price 268000, drafted cash at closing 5000. -/
def draftedOfferA : Offer := [
  ("strategy", .vStr "cash"), ("headline", .vStr "Fast Cash Close"),
  ("purchase_price", .vNum 268000), ("cash_at_closing", .vNum 5000),
  ("payment_structure", .vStr "Lump sum at closing"), ("timeline_days", .vNum 14),
  ("terms", .vList ["As-is purchase"]), ("seller_benefits", .vList ["Speed", "Certainty"]),
  ("presentation_script", .vStr "This option closes fast."),
  ("investor_notes", .vStr "Anchor low.")]

/-- A concrete drafted non-cash (subject-to) offer. -/
def draftedOfferB : Offer := [
  ("strategy", .vStr "subject_to"), ("headline", .vStr "Keep The Loan In Place"),
  ("purchase_price", .vNum 263000), ("cash_at_closing", .vNum 3000),
  ("payment_structure", .vStr "Monthly payment takeover"), ("timeline_days", .vNum 21),
  ("terms", .vList ["Existing loan stays"]), ("seller_benefits", .vList ["Higher price"]),
  ("presentation_script", .vStr "This option keeps the loan."),
  ("investor_notes", .vStr "Watch due-on-sale risk.")]

/-- A concrete well-formed drafting-service response. -/
def draftedPair : Draft := [
  ("offer_a", .sub draftedOfferA), ("offer_b", .sub draftedOfferB),
  ("comparison_intro", .prim (.vStr "Here are two options.")),
  ("closing_question", .prim (.vStr "Which works better for you?"))]

/-- The normalized inputs `extractInputs reqCash` produces. -/
def nCash : Normalized :=
  { strategy1 := .rStr "cash", strategy2 := .rStr "cash", weight1 := 50, weight2 := 50,
    property_data := { arv := 300000, repairs := 0, mortgage_balance := 260000,
                       monthly_payment := 0, condition := .rNum 5 },
    seller_data := { motivation_score := 5, pain_point := .rStr "", timeline := .rStr "",
                     cash_needed := 0, priorities := .rList [] },
    investor_data := { max_offer_percent := 70, min_profit := 20000,
                       available_cash := 10000, exit_strategy := .rStr "flip" } }

example : extractInputs reqCash = .ok nCash := rfl

/-- C1, counterexample: on a concrete request (mortgage balance 260000, no
arrears field exists in the code) and a concrete drafted cash offer
(purchase price 268000, drafted cash at closing 5000), the engine returns
the drafted 5000 unchanged, while the formula the claim states (evaluated
with arrears 0, the only value the code could supply) gives 2640. -/
theorem c1_counterexample :
    (generate_offers reqCash (.jobj draftedPair) nowStamp).toOption.bind
        (fun d => offerField d "offer_a" "cash_at_closing") = some (.vNum 5000)
    ∧ specCashAtClosing 268000 260000 0 = 2640
    ∧ (generate_offers reqCash (.jobj draftedPair) nowStamp).toOption.bind
        (fun d => offerField d "offer_a" "cash_at_closing") ≠
          some (.vNum (Flt.ofInt (specCashAtClosing 268000 260000 0))) := by
  refine ⟨by decide, by decide, by decide⟩

/-- C1, amended: the engine never rewrites `cash_at_closing`; whenever the
drafting step succeeds, the returned `offer_a` is the drafted sub-object
unchanged, so its `cash_at_closing` is exactly the drafted value. -/
theorem c1_cash_at_closing_passthrough (n : Normalized) (now : String) (r : Draft)
    (o : Offer) (q : Flt)
    (hp : promptEffects n = .ok ())
    (ho : dictGet r "offer_a" = some (.sub o))
    (_hs : getField o "strategy" = some (.vStr "cash"))
    (hc : getField o "cash_at_closing" = some (.vNum q)) :
    ∃ out, generate_strategic_offers n (.jobj r) now = .ok out
      ∧ offerField out "offer_a" "cash_at_closing" = some (.vNum q) := by
  refine ⟨_, generate_strategic_offers_ok n r now hp, ?_⟩
  unfold offerField
  rw [addMetadata_get_other _ _ _ _ (by decide) (by decide) (by decide), ho]
  exact hc

/-- C1, witness for the amended theorem at the concrete scenario. -/
theorem c1_cash_at_closing_passthrough_w :
    ∃ out, generate_strategic_offers nCash (.jobj draftedPair) nowStamp = .ok out
      ∧ offerField out "offer_a" "cash_at_closing" = some (.vNum 5000) :=
  c1_cash_at_closing_passthrough nCash nowStamp draftedPair draftedOfferA 5000
    rfl rfl rfl rfl

/-- C2, counterexample: the same concrete run returns the cash offer
(strategy field present and equal to "cash") with no `viability_flag`
field at all, although the reconciled amount for a drafted cash price of
268000 against a 260000 mortgage balance is well defined; no flag is ever
attached. -/
theorem c2_counterexample :
    (generate_offers reqCash (.jobj draftedPair) nowStamp).toOption.bind
        (fun d => offerField d "offer_a" "strategy") = some (.vStr "cash")
    ∧ (generate_offers reqCash (.jobj draftedPair) nowStamp).toOption.bind
        (fun d => offerField d "offer_a" "viability_flag") = none := by
  exact ⟨rfl, rfl⟩

/-- C2, amended: the engine attaches no viability information: a processed
cash offer drafted without a `viability_flag` field is returned still
without one (the offer sub-object passes through unchanged). -/
theorem c2_no_viability_flag (n : Normalized) (now : String) (r : Draft) (o : Offer)
    (hp : promptEffects n = .ok ())
    (ho : dictGet r "offer_a" = some (.sub o))
    (_hs : getField o "strategy" = some (.vStr "cash"))
    (hv : getField o "viability_flag" = none) :
    ∃ out, generate_strategic_offers n (.jobj r) now = .ok out
      ∧ offerField out "offer_a" "viability_flag" = none := by
  refine ⟨_, generate_strategic_offers_ok n r now hp, ?_⟩
  unfold offerField
  rw [addMetadata_get_other _ _ _ _ (by decide) (by decide) (by decide), ho]
  exact hv

/-- C2, witness for the amended theorem at the concrete scenario. -/
theorem c2_no_viability_flag_w :
    ∃ out, generate_strategic_offers nCash (.jobj draftedPair) nowStamp = .ok out
      ∧ offerField out "offer_a" "viability_flag" = none :=
  c2_no_viability_flag nCash nowStamp draftedPair draftedOfferA rfl rfl rfl rfl

/-- C3: validation is the identity on each offer sub-object: for any offer
slot (`offer_a` or `offer_b`) holding an offer whose strategy is not the
cash tag, the returned draft holds the very same sub-object, every field
identical to the input. -/
theorem c3_noncash_passthrough (n : Normalized) (now : String) (r : Draft)
    (k : String) (o : Offer)
    (hk : k = "offer_a" ∨ k = "offer_b")
    (ho : dictGet r k = some (.sub o))
    (_hs : getField o "strategy" ≠ some (.vStr "cash"))
    (hp : promptEffects n = .ok ()) :
    ∃ out, generate_strategic_offers n (.jobj r) now = .ok out
      ∧ dictGet out k = some (.sub o) := by
  refine ⟨_, generate_strategic_offers_ok n r now hp, ?_⟩
  have h1 : k ≠ "generated_at" := by rcases hk with h | h <;> simp [h]
  have h2 : k ≠ "property_arv" := by rcases hk with h | h <;> simp [h]
  have h3 : k ≠ "seller_motivation" := by rcases hk with h | h <;> simp [h]
  rw [addMetadata_get_other _ _ _ _ h1 h2 h3]
  exact ho

/-- C3, witness: the concrete subject-to offer B passes through unchanged. -/
theorem c3_noncash_passthrough_w :
    ∃ out, generate_strategic_offers nCash (.jobj draftedPair) nowStamp = .ok out
      ∧ dictGet out "offer_b" = some (.sub draftedOfferB) :=
  c3_noncash_passthrough nCash nowStamp draftedPair "offer_b" draftedOfferB
    (Or.inr rfl) rfl (by decide) rfl

/-- C4: the validation step is idempotent: feeding the draft it returned
back through `generate_strategic_offers` (same normalized inputs, same
timestamp) returns it unchanged.  The step writes only the three top-level
metadata keys, reading the ARV and motivation score from the normalized
inputs, never from the draft, so a second pass overwrites each of the
three keys with the value it already holds. -/
theorem c4_validation_idempotent (n : Normalized) (now : String) (r : Draft)
    (out : Draft)
    (h : generate_strategic_offers n (.jobj r) now = .ok out) :
    generate_strategic_offers n (.jobj out) now = .ok out := by
  have hp : promptEffects n = .ok () := by
    cases hpe : promptEffects n with
    | error e =>
      unfold generate_strategic_offers at h
      rw [hpe] at h
      simp at h
    | ok u => cases u; rfl
  rw [generate_strategic_offers_ok n r now hp] at h
  rw [generate_strategic_offers_ok n out now hp]
  injection h with h
  rw [← h, addMetadata_idem]

/-- C4, witness at the concrete scenario. -/
theorem c4_validation_idempotent_w :
    generate_strategic_offers nCash
      (.jobj (addMetadata nowStamp 300000 5 draftedPair)) nowStamp =
      .ok (addMetadata nowStamp 300000 5 draftedPair) :=
  c4_validation_idempotent nCash nowStamp draftedPair
    (addMetadata nowStamp 300000 5 draftedPair) rfl

theorem getSub_none {d : Draft} {k : String} (h : dictGet d k = none) :
    getSub d k = .error (.keyError k) := by
  unfold getSub
  rw [h]

theorem renderOffer_missing_price (o : Offer) (hd : Val)
    (hh : getField o "headline" = some hd)
    (hm : getField o "purchase_price" = none) :
    renderOffer o = .error (.keyError "purchase_price") := by
  unfold renderOffer
  simp only [getFieldE, hh, hm, except_bind_ok, except_bind_error]

/-- Request for the missing-price scenario: mortgage balance 100000. -/
def reqC5 : List (String × Raw) := [
  ("strategy1", .rStr "cash"), ("strategy2", .rStr "cash"),
  ("mortgage_balance", .rNum 100000)]

/-- Normalized form of `reqC5`. -/
def nC5 : Normalized :=
  { strategy1 := .rStr "cash", strategy2 := .rStr "cash", weight1 := 50, weight2 := 50,
    property_data := { arv := 0, repairs := 0, mortgage_balance := 100000,
                       monthly_payment := 0, condition := .rNum 5 },
    seller_data := { motivation_score := 5, pain_point := .rStr "", timeline := .rStr "",
                     cash_needed := 0, priorities := .rList [] },
    investor_data := { max_offer_percent := 70, min_profit := 20000,
                       available_cash := 10000, exit_strategy := .rStr "flip" } }

example : extractInputs reqC5 = .ok nC5 := rfl

/-- A drafted cash offer with no `purchase_price` field. -/
def offerNoPrice : Offer := [
  ("strategy", .vStr "cash"), ("headline", .vStr "Cash Now"),
  ("cash_at_closing", .vNum 5000), ("payment_structure", .vStr "Lump sum"),
  ("timeline_days", .vNum 7), ("terms", .vList ["As-is purchase"]),
  ("seller_benefits", .vList ["Speed"]),
  ("presentation_script", .vStr "Quick close."),
  ("investor_notes", .vStr "Check title.")]

/-- A drafted pair whose offer A lacks `purchase_price`. -/
def pairNoPrice : Draft := [
  ("offer_a", .sub offerNoPrice), ("offer_b", .sub draftedOfferB),
  ("comparison_intro", .prim (.vStr "Two options.")),
  ("closing_question", .prim (.vStr "Which one?"))]

/-- C5, counterexample: a cash offer without `purchase_price` is returned
with its drafted `cash_at_closing` of 5000 untouched and with no
viability flag, instead of the claimed default computation
(which would give -100000 for a 100000 mortgage balance). -/
theorem c5_counterexample :
    (generate_offers reqC5 (.jobj pairNoPrice) nowStamp).toOption.bind
        (fun d => offerField d "offer_a" "cash_at_closing") = some (.vNum 5000)
    ∧ (generate_offers reqC5 (.jobj pairNoPrice) nowStamp).toOption.bind
        (fun d => offerField d "offer_a" "viability_flag") = none
    ∧ specCashAtClosing 0 100000 0 = -100000
    ∧ (generate_offers reqC5 (.jobj pairNoPrice) nowStamp).toOption.bind
        (fun d => offerField d "offer_a" "cash_at_closing") ≠
          some (.vNum (Flt.ofInt (-100000))) :=
  ⟨rfl, rfl, by decide, by decide⟩

/-- C5, amended: the engine indeed does not raise on a cash offer lacking
`purchase_price`, but only because it never reads the field: the offer
passes through unchanged, with no default substituted and no viability
flag attached; the missing field first surfaces as a `KeyError` when the
PDF formatter reads the offer. -/
theorem c5_missing_price_passthrough (n : Normalized) (now ft today : String)
    (r : Draft) (o : Offer) (hd : Val)
    (hp : promptEffects n = .ok ())
    (ho : dictGet r "offer_a" = some (.sub o))
    (_hs : getField o "strategy" = some (.vStr "cash"))
    (hmiss : getField o "purchase_price" = none)
    (hhead : getField o "headline" = some hd) :
    ∃ out, generate_strategic_offers n (.jobj r) now = .ok out
      ∧ dictGet out "offer_a" = some (.sub o)
      ∧ generate_pdf out ft today = .error (.keyError "purchase_price") := by
  have hout : dictGet (addMetadata now n.property_data.arv
      n.seller_data.motivation_score r) "offer_a" = some (.sub o) := by
    rw [addMetadata_get_other _ _ _ _ (by decide) (by decide) (by decide)]
    exact ho
  refine ⟨_, generate_strategic_offers_ok n r now hp, hout, ?_⟩
  unfold generate_pdf
  simp only [getSub_eq hout, renderOffer_missing_price o hd hhead hmiss,
    except_bind_ok, except_bind_error]

/-- C5, witness for the amended theorem at the concrete scenario. -/
theorem c5_missing_price_passthrough_w :
    ∃ out, generate_strategic_offers nC5 (.jobj pairNoPrice) nowStamp = .ok out
      ∧ dictGet out "offer_a" = some (.sub offerNoPrice)
      ∧ generate_pdf out "pro" "January 01, 2026" =
          .error (.keyError "purchase_price") :=
  c5_missing_price_passthrough nC5 nowStamp "pro" "January 01, 2026" pairNoPrice
    offerNoPrice (.vStr "Cash Now") rfl rfl rfl rfl rfl

/-- C6: when a strategy selector is absent or not a catalog key, the
handler fails with the catalog-lookup error (the code-level form of the
spec's MissingStrategy) during prompt construction, before the drafting
call: the outcome is the same error for every possible drafting response,
so no drafting output is ever consumed. -/
theorem c6_missing_strategy (data : List (String × Raw)) (n : Normalized)
    (hx : extractInputs data = .ok n)
    (hj : ∃ s, pyJoin n.seller_data.priorities = .ok s)
    (hs : (catalogLookup n.strategy1).toOption = none ∨
          (catalogLookup n.strategy2).toOption = none) :
    ∃ e, (catalogLookup n.strategy1 = .error e ∨ catalogLookup n.strategy2 = .error e)
      ∧ ∀ parsed now, generate_offers data parsed now = .error e := by
  obtain ⟨s, hjs⟩ := hj
  cases h1 : catalogLookup n.strategy1 with
  | error e1 =>
    refine ⟨e1, Or.inl rfl, ?_⟩
    intro parsed now
    unfold generate_offers generate_strategic_offers promptEffects
    rw [hx]
    simp only [hjs, h1, except_bind_ok, except_bind_error]
  | ok name1 =>
    cases h2 : catalogLookup n.strategy2 with
    | error e2 =>
      refine ⟨e2, Or.inr rfl, ?_⟩
      intro parsed now
      unfold generate_offers generate_strategic_offers promptEffects
      rw [hx]
      simp only [hjs, h1, h2, except_bind_ok, except_bind_error]
    | ok name2 =>
      rcases hs with habs | habs
      · rw [h1] at habs; exact Option.noConfusion habs
      · rw [h2] at habs; exact Option.noConfusion habs

/-- Request with an unrecognized strategy selector and offer B's selector
absent. -/
def reqBadStrat : List (String × Raw) := [("strategy1", .rStr "wholetail")]

/-- Normalized form of `reqBadStrat`. -/
def nBad : Normalized :=
  { strategy1 := .rStr "wholetail", strategy2 := .rNull, weight1 := 50, weight2 := 50,
    property_data := { arv := 0, repairs := 0, mortgage_balance := 0,
                       monthly_payment := 0, condition := .rNum 5 },
    seller_data := { motivation_score := 5, pain_point := .rStr "", timeline := .rStr "",
                     cash_needed := 0, priorities := .rList [] },
    investor_data := { max_offer_percent := 70, min_profit := 20000,
                       available_cash := 10000, exit_strategy := .rStr "flip" } }

example : extractInputs reqBadStrat = .ok nBad := rfl

/-- C6, witness at the concrete scenario. -/
theorem c6_missing_strategy_w :
    ∃ e, (catalogLookup nBad.strategy1 = .error e ∨
          catalogLookup nBad.strategy2 = .error e)
      ∧ ∀ parsed now, generate_offers reqBadStrat parsed now = .error e :=
  c6_missing_strategy reqBadStrat nBad rfl ⟨"", rfl⟩ (Or.inl rfl)

/-- A drafting-service response containing only `offer_a`. -/
def draftOnlyA : Draft := [
  ("offer_a", .sub draftedOfferA),
  ("comparison_intro", .prim (.vStr "One option."))]

/-- C7, counterexample: a parsed response with no `offer_b` is accepted:
the engine returns success (no MalformedDraft-style failure) and the
returned value still lacks `offer_b` — the malformed structure is passed
onward silently. -/
theorem c7_counterexample :
    (generate_offers reqCash (.jobj draftOnlyA) nowStamp).toOption.isSome = true
    ∧ (generate_offers reqCash (.jobj draftOnlyA) nowStamp).toOption.bind
        (fun d => dictGet d "offer_b") = none :=
  ⟨rfl, rfl⟩

/-- C7, amended: the engine performs no top-level shape check: a parsed
draft lacking `offer_b` is returned to the caller successfully (with
metadata added, still lacking `offer_b`); the missing key first fails in
the PDF exporter, as a `KeyError` raised after the whole offer A section
has rendered. -/
theorem c7_no_shape_check (n : Normalized) (now ft today : String) (r : Draft)
    (o : Offer) (ra : RenderedOffer)
    (hp : promptEffects n = .ok ())
    (hb : dictGet r "offer_b" = none)
    (ha : dictGet r "offer_a" = some (.sub o))
    (hr : renderOffer o = .ok ra) :
    ∃ out, generate_strategic_offers n (.jobj r) now = .ok out
      ∧ dictGet out "offer_b" = none
      ∧ generate_pdf out ft today = .error (.keyError "offer_b") := by
  have houtb : dictGet (addMetadata now n.property_data.arv
      n.seller_data.motivation_score r) "offer_b" = none := by
    rw [addMetadata_get_other _ _ _ _ (by decide) (by decide) (by decide)]
    exact hb
  have houta : dictGet (addMetadata now n.property_data.arv
      n.seller_data.motivation_score r) "offer_a" = some (.sub o) := by
    rw [addMetadata_get_other _ _ _ _ (by decide) (by decide) (by decide)]
    exact ha
  refine ⟨_, generate_strategic_offers_ok n r now hp, houtb, ?_⟩
  unfold generate_pdf
  simp only [getSub_eq houta, hr, getSub_none houtb,
    except_bind_ok, except_bind_error]

/-- C7, witness at the concrete scenario. -/
theorem c7_no_shape_check_w :
    ∃ out, generate_strategic_offers nCash (.jobj draftOnlyA) nowStamp = .ok out
      ∧ dictGet out "offer_b" = none
      ∧ generate_pdf out "branded" "January 01, 2026" =
          .error (.keyError "offer_b") :=
  c7_no_shape_check nCash nowStamp "branded" "January 01, 2026" draftOnlyA
    draftedOfferA _ rfl rfl rfl rfl

/-- Request whose `min_profit` is present but not numeric. -/
def req8 : List (String × Raw) := [
  ("strategy1", .rStr "cash"), ("strategy2", .rStr "cash"),
  ("min_profit", .rStr "abc")]

/-- C8, counterexample: an unparsable numeric field does not fall back to
its default — `float('abc')` raises and normalization fails, so the
handler rejects the request instead of substituting 20000. -/
theorem c8_counterexample :
    extractInputs req8 = .error (.valueError "abc")
    ∧ (extractInputs req8).toOption.map (fun n => n.investor_data.min_profit) ≠
        some 20000 :=
  ⟨rfl, by decide⟩

/-- C8, amended: the per-field defaults apply only when a field is absent
(not when it is unparsable): with `min_profit` and `available_cash` absent
from the request, successful normalization yields 20000 and 10000 for
them.  (No option-term field exists anywhere in the code.) -/
theorem c8_defaults_when_absent (data : List (String × Raw)) (n : Normalized)
    (hx : extractInputs data = .ok n)
    (h1 : dictGet data "min_profit" = none)
    (h2 : dictGet data "available_cash" = none) :
    n.investor_data.min_profit = 20000 ∧ n.investor_data.available_cash = 10000 := by
  unfold extractInputs at hx
  simp only [reqGetD, h1, h2, Option.getD_none] at hx
  obtain ⟨w1, hw1, hx⟩ := bind_ok hx
  obtain ⟨w2, hw2, hx⟩ := bind_ok hx
  obtain ⟨w3, hw3, hx⟩ := bind_ok hx
  obtain ⟨w4, hw4, hx⟩ := bind_ok hx
  obtain ⟨w5, hw5, hx⟩ := bind_ok hx
  obtain ⟨w6, hw6, hx⟩ := bind_ok hx
  obtain ⟨w7, hw7, hx⟩ := bind_ok hx
  obtain ⟨w8, hw8, hx⟩ := bind_ok hx
  obtain ⟨w9, hw9, hx⟩ := bind_ok hx
  obtain ⟨mp, hmp, hx⟩ := bind_ok hx
  obtain ⟨ac, hac, hx⟩ := bind_ok hx
  simp only [pyFloatE, pyFloat] at hmp hac
  simp only [except_pure, Except.ok.injEq] at hmp hac hx
  subst hx
  simp [← hmp, ← hac]

/-- Request with every numeric field absent. -/
def reqMin : List (String × Raw) := [("strategy1", .rStr "cash")]

/-- Normalized form of `reqMin`: every default applied. -/
def nMin : Normalized :=
  { strategy1 := .rStr "cash", strategy2 := .rNull, weight1 := 50, weight2 := 50,
    property_data := { arv := 0, repairs := 0, mortgage_balance := 0,
                       monthly_payment := 0, condition := .rNum 5 },
    seller_data := { motivation_score := 5, pain_point := .rStr "", timeline := .rStr "",
                     cash_needed := 0, priorities := .rList [] },
    investor_data := { max_offer_percent := 70, min_profit := 20000,
                       available_cash := 10000, exit_strategy := .rStr "flip" } }

example : extractInputs reqMin = .ok nMin := rfl

/-- C8, witness for the amended theorem at the concrete scenario. -/
theorem c8_defaults_when_absent_w :
    nMin.investor_data.min_profit = 20000 ∧ nMin.investor_data.available_cash = 10000 :=
  c8_defaults_when_absent reqMin nMin rfl rfl rfl

theorem renderOffer_cash_verbatim (o : Offer) (ra : RenderedOffer) (q : Flt)
    (h : renderOffer o = .ok ra)
    (hc : getField o "cash_at_closing" = some (.vNum q)) :
    ra.cash_cell = "$" ++ intCommaStr (pyRound q) := by
  unfold renderOffer at h
  obtain ⟨hd, hhd, h1⟩ := bind_ok h
  obtain ⟨pp, hpp, h2⟩ := bind_ok h1
  obtain ⟨ppc, hppc, h3⟩ := bind_ok h2
  obtain ⟨cc, hcc, h4⟩ := bind_ok h3
  obtain ⟨ccc, hccc, h5⟩ := bind_ok h4
  obtain ⟨ps, hps, h6⟩ := bind_ok h5
  obtain ⟨td, htd, h7⟩ := bind_ok h6
  obtain ⟨sb, hsb, h8⟩ := bind_ok h7
  obtain ⟨sbl, hsbl, h9⟩ := bind_ok h8
  have hra := Except.ok.inj h9
  subst hra
  have hcc2 : Val.vNum q = cc := by
    simp only [getFieldE, hc, Except.ok.injEq] at hcc
    exact hcc
  rw [← hcc2] at hccc
  simp only [fmtMoneyCell, Except.ok.injEq] at hccc
  exact hccc.symm

/-- C9: the PDF formatter reads only the six fields `headline`,
`purchase_price`, `cash_at_closing`, `payment_structure`, `timeline_days`
and `seller_benefits` of each offer — two drafts agreeing on those fields
per offer render identically, whatever their other fields hold — and the
cash figure it renders is the formatted stored `cash_at_closing` value,
not a re-derived amount. -/
theorem c9_pdf_reads_six_fields (d d' : Draft) (oa oa' ob ob' : Offer)
    (ft today : String)
    (ha : dictGet d "offer_a" = some (.sub oa))
    (ha' : dictGet d' "offer_a" = some (.sub oa'))
    (hb : dictGet d "offer_b" = some (.sub ob))
    (hb' : dictGet d' "offer_b" = some (.sub ob'))
    (ea : sixAgree oa oa') (eb : sixAgree ob ob') :
    generate_pdf d ft today = generate_pdf d' ft today
    ∧ ∀ q doc, getField oa "cash_at_closing" = some (.vNum q) →
        generate_pdf d ft today = .ok doc →
        doc.offer_a.cash_cell = "$" ++ intCommaStr (pyRound q) := by
  constructor
  · unfold generate_pdf
    simp only [getSub_eq ha, getSub_eq ha', getSub_eq hb, getSub_eq hb',
      renderOffer_congr ea, renderOffer_congr eb, except_bind_ok]
  · intro q doc hc hdoc
    unfold generate_pdf at hdoc
    simp only [getSub_eq ha, getSub_eq hb, except_bind_ok] at hdoc
    obtain ⟨ra, hra, hdoc⟩ := bind_ok hdoc
    obtain ⟨rb, hrb, hdoc⟩ := bind_ok hdoc
    simp only [except_pure, Except.ok.injEq] at hdoc
    subst hdoc
    exact renderOffer_cash_verbatim oa ra q hra hc

/-- Offer A with the six rendered fields identical to `draftedOfferA` but
different terms, script and notes. -/
def draftedOfferAAlt : Offer := [
  ("strategy", .vStr "cash"), ("headline", .vStr "Fast Cash Close"),
  ("purchase_price", .vNum 268000), ("cash_at_closing", .vNum 5000),
  ("payment_structure", .vStr "Lump sum at closing"), ("timeline_days", .vNum 14),
  ("terms", .vList ["Different terms"]), ("seller_benefits", .vList ["Speed", "Certainty"]),
  ("presentation_script", .vStr "A different script."),
  ("investor_notes", .vStr "Different notes.")]

/-- Offer B with the six rendered fields identical to `draftedOfferB`. -/
def draftedOfferBAlt : Offer := [
  ("strategy", .vStr "subject_to"), ("headline", .vStr "Keep The Loan In Place"),
  ("purchase_price", .vNum 263000), ("cash_at_closing", .vNum 3000),
  ("payment_structure", .vStr "Monthly payment takeover"), ("timeline_days", .vNum 21),
  ("terms", .vList ["Other terms"]), ("seller_benefits", .vList ["Higher price"]),
  ("presentation_script", .vStr "Another script."),
  ("investor_notes", .vStr "Other notes.")]

/-- A draft agreeing with `draftedPair` on the six rendered fields of each
offer but differing elsewhere. -/
def draftedPairAlt : Draft := [
  ("offer_a", .sub draftedOfferAAlt), ("offer_b", .sub draftedOfferBAlt),
  ("comparison_intro", .prim (.vStr "A different intro.")),
  ("closing_question", .prim (.vStr "A different question?"))]

/-- C9, witness: the two concrete drafts render identically. -/
theorem c9_pdf_reads_six_fields_w :
    generate_pdf draftedPair "pro" "January 01, 2026" =
      generate_pdf draftedPairAlt "pro" "January 01, 2026" :=
  (c9_pdf_reads_six_fields draftedPair draftedPairAlt draftedOfferA draftedOfferAAlt
    draftedOfferB draftedOfferBAlt "pro" "January 01, 2026" rfl rfl rfl rfl
    ⟨rfl, rfl, rfl, rfl, rfl, rfl⟩ ⟨rfl, rfl, rfl, rfl, rfl, rfl⟩).1

/-- A drafted response that already carries a `property_arv` key. -/
def draftWithArv : Draft := [
  ("offer_a", .sub draftedOfferA), ("offer_b", .sub draftedOfferB),
  ("property_arv", .prim (.vNum 999))]

/-- C10, counterexample: a parsed response that already contains a
`property_arv` key does not have it preserved — the engine overwrites it
with the normalized ARV (999 becomes 300000), and only two new keys are
added, not three. -/
theorem c10_counterexample :
    dictGet draftWithArv "property_arv" = some (.prim (.vNum 999))
    ∧ (generate_offers reqCash (.jobj draftWithArv) nowStamp).toOption.bind
        (fun d => dictGet d "property_arv") = some (.prim (.vNum 300000))
    ∧ (TopVal.prim (.vNum 999)) ≠ (TopVal.prim (.vNum 300000)) :=
  ⟨rfl, rfl, by decide⟩

/-- C10, amended: every key of the parsed response other than
`generated_at`, `property_arv` and `seller_motivation` keeps its drafted
value (in particular every offer figure and text), and those three keys
are set to the generation timestamp, the normalized ARV and the normalized
motivation score — overwriting any drafted value they may have had. -/
theorem c10_metadata_keys (now : String) (arv : Flt) (mot : Int) (r : Draft) :
    (∀ k, k ≠ "generated_at" → k ≠ "property_arv" → k ≠ "seller_motivation" →
      dictGet (addMetadata now arv mot r) k = dictGet r k)
    ∧ dictGet (addMetadata now arv mot r) "generated_at" = some (.prim (.vStr now))
    ∧ dictGet (addMetadata now arv mot r) "property_arv" = some (.prim (.vNum arv))
    ∧ dictGet (addMetadata now arv mot r) "seller_motivation" =
        some (.prim (.vNum (Flt.ofInt mot))) := by
  refine ⟨fun k h1 h2 h3 => addMetadata_get_other now arv mot r h1 h2 h3, ?_, ?_, ?_⟩
  · unfold addMetadata
    rw [dictGet_dictSet_ne _ _ (by decide), dictGet_dictSet_ne _ _ (by decide),
      dictGet_dictSet_same]
  · unfold addMetadata
    rw [dictGet_dictSet_ne _ _ (by decide), dictGet_dictSet_same]
  · unfold addMetadata
    rw [dictGet_dictSet_same]

/-- C10, witness: at the concrete scenario, the offer objects are
preserved and the timestamp key is set. -/
theorem c10_metadata_keys_w :
    dictGet (addMetadata nowStamp 300000 5 draftedPair) "offer_a" =
        dictGet draftedPair "offer_a"
    ∧ dictGet (addMetadata nowStamp 300000 5 draftedPair) "generated_at" =
        some (.prim (.vStr nowStamp)) :=
  ⟨(c10_metadata_keys nowStamp 300000 5 draftedPair).1 "offer_a"
      (by decide) (by decide) (by decide),
    (c10_metadata_keys nowStamp 300000 5 draftedPair).2.1⟩
